import Mathlib

/-!
Verification development for the recommendation workflow of
`src/main.py`: the catalog client (`Database`), the text-generation
client, the four workflow stages and the LangGraph-style state machine
that drives them (`RecommendationWorkflow`).
-/

namespace RecSys

/-- A catalog row as returned by the document store.  Rows are record
maps in the source, so the non-genre fields read by the Filtering stage
may be absent from a row. -/
structure CatalogItem where
  title : Option String
  author : Option String
  director : Option String
  genre : String
deriving DecidableEq

/-- Failure of the catalog store (connectivity or query failure); the
source converts any such failure into an HTTP 500 at the data layer. -/
inductive DataSourceError where
  | mk
deriving DecidableEq

/-- Failure of the text-generation provider; the source converts any
such failure into an HTTP 500 inside the generation client. -/
inductive GenerationError where
  | mk
deriving DecidableEq

/-- A missing record field (a failing record access on a catalog row). -/
inductive KeyError where
  | mk
deriving DecidableEq

/-- The document store together with its failure behaviour for one run:
`listFail` makes the category listing fail, `queryFail g` makes the
per-genre document query for `g` fail. -/
structure Database where
  rows : List CatalogItem
  listFail : Bool
  queryFail : String → Bool

/-- Lower-casing of a text, character by character. -/
def lowerStr (s : String) : String := String.mk (s.data.map Char.toLower)

/-- Containment of one character list inside another as a contiguous
run. -/
def isInfixChars (pat : List Char) : List Char → Bool
  | [] => pat.isEmpty
  | c :: cs => pat.isPrefixOf (c :: cs) || isInfixChars pat cs

/-- Modelled from the spec: the store is an external collaborator and
its genre filter is not code of this repository; per the external
interface contract (spec section 6) the filter performs a
case-insensitive partial match of the category against the stored genre
label. -/
def genreMatch (category : String) (genreLabel : String) : Bool :=
  isInfixChars (lowerStr category).data (lowerStr genreLabel).data

/-- `Database.get_available_categories`: the distinct lower-cased genre
labels of the store; any failure surfaces as a data-source error. -/
def get_available_categories (db : Database) : Except DataSourceError (List String) :=
  if db.listFail then .error .mk
  else .ok ((db.rows.map (fun it => lowerStr it.genre)).dedup)

/-- The accumulation loop of `Database.query_documents`: one store query
per genre, extending the accumulator with the matches of each genre in
turn; a failing per-genre query aborts the whole loop. -/
def queryLoop (db : Database) :
    List String → List CatalogItem → Except DataSourceError (List CatalogItem)
  | [], acc => .ok acc
  | g :: gs, acc =>
    if db.queryFail g then .error .mk
    else queryLoop db gs (acc ++ db.rows.filter (fun it => genreMatch g it.genre))

/-- `Database.query_documents`. -/
def query_documents (db : Database) (genres : List String) :
    Except DataSourceError (List CatalogItem) :=
  queryLoop db genres []

/-- The shared state record threaded through the workflow stages (the
run state dictionary of the source, with its five keys). -/
structure WorkflowState where
  user_input : String
  user_preferences : String
  retrieved_items : List CatalogItem
  filtered_recommendations : String
  final_response : String
deriving DecidableEq

/-- The external collaborators of one run: the generation client (a
system prompt and a user text in, generated text or a failure out) and
the document store. -/
structure Env where
  llm : String → String → Except GenerationError String
  db : Database

/-- System prompt of the Preference Collection stage. -/
def collect_prompt : String :=
  "You are a friendly and helpful assistant. Your ONLY job is to collect user preferences for movies and books. Return the preferences in a clear, concise sentence.  For example: \"The user likes sci-fi movies and fantasy books.\"  Do not provide recommendations yet. Just collect preferences."

/-- System prompt of the Filtering stage. -/
def filter_prompt : String :=
  "You are a helpful assistant that filters recommendations based on user preferences.\nReturn only the recommendations that closely match the expressed interests of the user.\nIf no recommendations match the user preferences, return \"No recommendations found\"."

/-- System prompt of the Final Formatting stage. -/
def final_prompt : String :=
  "Format the recommendations in an engaging way.  Include titles and authors/directors where available."

/-- User text sent by the Filtering stage. -/
def filter_user_text (prefs items : String) : String :=
  "User preferences: " ++ prefs ++ "\nItems:\n" ++ items

/-- User text sent by the Final Formatting stage. -/
def final_user_text (recs : String) : String :=
  "Here are the recommendations: " ++ recs

/-- Helper of `tokens`: scan the characters, collecting the current word
in reverse and emitting it at each whitespace run or at the end. -/
def splitWsAux : List Char → List Char → List String
  | [], cur => if cur = [] then [] else [String.mk cur.reverse]
  | c :: cs, cur =>
    if c.isWhitespace then
      (if cur = [] then splitWsAux cs [] else String.mk cur.reverse :: splitWsAux cs [])
    else splitWsAux cs (c :: cur)

/-- Whitespace tokenisation dropping empty tokens (`str.split` with no
argument). -/
def tokens (s : String) : List String := splitWsAux s.data []

/-- The category selection of the Retrieval stage: the available
categories whose label occurs among the whitespace tokens of the
lower-cased preference text. -/
def selectedCategories (cats : List String) (prefs : String) : List String :=
  let toks := tokens (lowerStr prefs)
  cats.filter (fun c => toks.contains c)

/-- `RecommendationWorkflow.user_interaction_agent`: write the generated
preference sentence; on generation failure log and leave the state
unchanged. -/
def user_interaction_agent (env : Env) (s : WorkflowState) : WorkflowState :=
  match env.llm collect_prompt s.user_input with
  | .ok r => { s with user_preferences := r }
  | .error _ => s

/-- `RecommendationWorkflow.retrieval_agent`: list categories, select
the ones present as preference tokens, query the store for them; on any
catalog failure log and leave the state unchanged. -/
def retrieval_agent (env : Env) (s : WorkflowState) : WorkflowState :=
  match get_available_categories env.db with
  | .error _ => s
  | .ok cats =>
    let selected := selectedCategories cats s.user_preferences
    if selected = [] then { s with retrieved_items := [] }
    else
      match query_documents env.db selected with
      | .ok items => { s with retrieved_items := items }
      | .error _ => s

/-- One line of the Filtering stage item listing; reading a field that
is absent from the row raises. -/
def formatLine (it : CatalogItem) : Except KeyError String :=
  match it.title, it.author, it.director with
  | some t, some a, some d =>
      .ok ("Title: " ++ t ++ ", Author: " ++ a ++ ", Director: " ++ d ++ ", Genre: " ++ it.genre)
  | _, _, _ => .error .mk

/-- The newline-joined item listing built by the Filtering stage before
its guarded region. -/
def formatItems (items : List CatalogItem) : Except KeyError String :=
  Except.map (fun ls => String.intercalate "\n" ls) (items.mapM formatLine)

/-- `RecommendationWorkflow.filtering_agent`: the item listing is built
before the guarded region, so a missing row field raises; only the
generation call is guarded, its failure leaving the state unchanged. -/
def filtering_agent (env : Env) (s : WorkflowState) : Except KeyError WorkflowState :=
  match formatItems s.retrieved_items with
  | .error e => .error e
  | .ok txt =>
    match env.llm filter_prompt (filter_user_text s.user_preferences txt) with
    | .ok r => .ok { s with filtered_recommendations := r }
    | .error _ => .ok s

/-- `RecommendationWorkflow.final_response_agent`: write the formatted
answer; on generation failure log and leave the state unchanged. -/
def final_response_agent (env : Env) (s : WorkflowState) : WorkflowState :=
  match env.llm final_prompt (final_user_text s.filtered_recommendations) with
  | .ok r => { s with final_response := r }
  | .error _ => s

/-- The graph nodes of `RecommendationWorkflow._build_workflow`
(`Terminal` is the END node). -/
inductive Node where
  | userInteraction
  | retrieval
  | filtering
  | finalResponse
  | terminal
deriving DecidableEq

/-- Entry point of the graph (`set_entry_point("User Interaction")`). -/
def entry_point : Node := Node.userInteraction

/-- The transition table of `_build_workflow`: two conditional edges
testing truthiness of a state field, two unconditional edges. -/
def nextNode : Node → WorkflowState → Node
  | .userInteraction, s => if s.user_preferences ≠ "" then .retrieval else .finalResponse
  | .retrieval, s => if s.retrieved_items ≠ [] then .filtering else .finalResponse
  | .filtering, _ => .finalResponse
  | .finalResponse, _ => .terminal
  | .terminal, _ => .terminal

/-- Execution of one graph node on the run state. -/
def runNode (env : Env) : Node → WorkflowState → Except KeyError WorkflowState
  | .userInteraction, s => .ok (user_interaction_agent env s)
  | .retrieval, s => .ok (retrieval_agent env s)
  | .filtering, s => filtering_agent env s
  | .finalResponse, s => .ok (final_response_agent env s)
  | .terminal, s => .ok s

/-- Distance of a node from the END node, bounding the remaining steps. -/
def rank : Node → Nat
  | .userInteraction => 4
  | .retrieval => 3
  | .filtering => 2
  | .finalResponse => 1
  | .terminal => 0

theorem rank_next (n : Node) (s : WorkflowState) (h : n ≠ Node.terminal) :
    rank (nextNode n s) < rank n := by
  cases n with
  | userInteraction => simp only [nextNode]; split <;> decide
  | retrieval => simp only [nextNode]; split <;> decide
  | filtering => simp only [nextNode]; decide
  | finalResponse => simp only [nextNode]; decide
  | terminal => exact absurd rfl h

/-- The graph driver (`workflow.compile().invoke` starting from a given
node): run the current node, then follow the transition table, until the
END node; an unhandled stage failure aborts execution. -/
def exec (env : Env) (n : Node) (s : WorkflowState) : Except KeyError WorkflowState :=
  if h : n = Node.terminal then .ok s
  else
    match runNode env n s with
    | .error e => .error e
    | .ok s' => exec env (nextNode n s') s'
termination_by rank n
decreasing_by exact rank_next n s' h

/-- `workflow.compile().invoke` from the entry point. -/
def invoke (env : Env) (s : WorkflowState) : Except KeyError WorkflowState :=
  exec env entry_point s

/-- The initial run state built by `run` and `get_state`. -/
def initial_state (input : String) : WorkflowState :=
  { user_input := input, user_preferences := "", retrieved_items := [],
    filtered_recommendations := "", final_response := "" }

/-- `RecommendationWorkflow.run`: drive the graph and return only the
final response field. -/
def run (env : Env) (input : String) : Except KeyError String :=
  Except.map (fun s => s.final_response) (invoke env (initial_state input))

/-- `RecommendationWorkflow.get_state`: drive the graph and return the
whole terminal state. -/
def get_state (env : Env) (input : String) : Except KeyError WorkflowState :=
  invoke env (initial_state input)

theorem exec_terminal (env : Env) (s : WorkflowState) :
    exec env Node.terminal s = .ok s := by
  rw [exec]
  simp

theorem exec_step (env : Env) (n : Node) (s : WorkflowState) (h : n ≠ Node.terminal) :
    exec env n s =
      match runNode env n s with
      | .error e => .error e
      | .ok s' => exec env (nextNode n s') s' := by
  rw [exec]
  simp [h]

/-- Straight-line unfolding of a full graph execution from the entry
point: the stages in order, with the two conditional branch points. -/
theorem invoke_eq (env : Env) (s0 : WorkflowState) :
    invoke env s0 =
      if (user_interaction_agent env s0).user_preferences = "" then
        .ok (final_response_agent env (user_interaction_agent env s0))
      else if (retrieval_agent env (user_interaction_agent env s0)).retrieved_items = [] then
        .ok (final_response_agent env (retrieval_agent env (user_interaction_agent env s0)))
      else
        match filtering_agent env (retrieval_agent env (user_interaction_agent env s0)) with
        | .error e => .error e
        | .ok s3 => .ok (final_response_agent env s3) := by
  show exec env Node.userInteraction s0 = _
  rw [exec_step env Node.userInteraction s0 (by decide)]
  simp only [runNode, nextNode]
  by_cases h1 : (user_interaction_agent env s0).user_preferences = ""
  · rw [if_neg (not_not_intro h1), if_pos h1]
    rw [exec_step env Node.finalResponse _ (by decide)]
    simp only [runNode, nextNode]
    rw [exec_terminal]
  · rw [if_pos h1, if_neg h1]
    rw [exec_step env Node.retrieval _ (by decide)]
    simp only [runNode, nextNode]
    by_cases h2 : (retrieval_agent env (user_interaction_agent env s0)).retrieved_items = []
    · rw [if_neg (not_not_intro h2), if_pos h2]
      rw [exec_step env Node.finalResponse _ (by decide)]
      simp only [runNode, nextNode]
      rw [exec_terminal]
    · rw [if_pos h2, if_neg h2]
      cases hf : filtering_agent env (retrieval_agent env (user_interaction_agent env s0)) with
      | error e =>
        rw [exec_step env Node.filtering _ (by decide)]
        simp only [runNode, hf]
      | ok s3 =>
        rw [exec_step env Node.filtering _ (by decide)]
        simp only [runNode, nextNode, hf]
        rw [exec_step env Node.finalResponse _ (by decide)]
        simp only [runNode, nextNode]
        rw [exec_terminal]

/-- A catalog row carrying every field read by the Filtering stage. -/
def goodItem (it : CatalogItem) : Prop :=
  it.title.isSome = true ∧ it.author.isSome = true ∧ it.director.isSome = true

instance (it : CatalogItem) : Decidable (goodItem it) := by
  unfold goodItem
  infer_instance

/-- A store whose rows all carry the fields of a catalog item. -/
def WellFormed (db : Database) : Prop := ∀ it ∈ db.rows, goodItem it

instance (db : Database) : Decidable (WellFormed db) := by
  unfold WellFormed
  exact List.decidableBAll _ _

theorem queryLoop_ok (db : Database) (gs : List String) (acc : List CatalogItem)
    (h : ∀ g ∈ gs, db.queryFail g = false) :
    queryLoop db gs acc =
      .ok (acc ++ gs.flatMap (fun g => db.rows.filter (fun it => genreMatch g it.genre))) := by
  induction gs generalizing acc with
  | nil => simp [queryLoop]
  | cons g gs ih =>
    have hg : db.queryFail g = false := h g (List.mem_cons_self g gs)
    rw [queryLoop, if_neg (by simp [hg])]
    rw [ih _ (fun g2 hg2 => h g2 (List.mem_cons_of_mem _ hg2))]
    simp [List.flatMap_cons, List.append_assoc]

theorem queryLoop_err (db : Database) (gs : List String) (acc : List CatalogItem)
    (h : ∃ g ∈ gs, db.queryFail g = true) :
    queryLoop db gs acc = .error .mk := by
  induction gs generalizing acc with
  | nil => simp at h
  | cons g gs ih =>
    rcases h with ⟨g2, hmem, hfail⟩
    rcases List.mem_cons.mp hmem with heq | htail
    · subst heq
      rw [queryLoop, if_pos (by simp [hfail])]
    · by_cases hg : db.queryFail g = true
      · rw [queryLoop, if_pos (by simp [hg])]
      · rw [queryLoop, if_neg (by simpa using hg)]
        exact ih _ ⟨g2, htail, hfail⟩

theorem queryLoop_ok_noFail (db : Database) (gs : List String) (acc : List CatalogItem)
    (res : List CatalogItem) (h : queryLoop db gs acc = .ok res) :
    ∀ g ∈ gs, db.queryFail g = false := by
  intro g hg
  by_contra hfail
  rw [queryLoop_err db gs acc ⟨g, hg, by simpa using hfail⟩] at h
  exact Except.noConfusion h

theorem query_documents_ok_elim (db : Database) (gs : List String)
    (res : List CatalogItem) (h : query_documents db gs = .ok res) :
    res = gs.flatMap (fun g => db.rows.filter (fun it => genreMatch g it.genre)) ∧
      ∀ g ∈ gs, db.queryFail g = false := by
  have hnf := queryLoop_ok_noFail db gs [] res h
  refine ⟨?_, hnf⟩
  rw [query_documents, queryLoop_ok db gs [] hnf] at h
  simpa using (Except.ok.inj h).symm

theorem query_documents_sub (db : Database) (gs : List String)
    (res : List CatalogItem) (h : query_documents db gs = .ok res) :
    ∀ it ∈ res, it ∈ db.rows := by
  intro it hit
  rcases query_documents_ok_elim db gs res h with ⟨hres, -⟩
  subst hres
  rcases List.mem_flatMap.mp hit with ⟨g, -, hmem⟩
  exact (List.mem_filter.mp hmem).1

theorem uia_of_ok (env : Env) (s : WorkflowState) (r : String)
    (h : env.llm collect_prompt s.user_input = .ok r) :
    user_interaction_agent env s = { s with user_preferences := r } := by
  rw [user_interaction_agent, h]

theorem uia_of_err (env : Env) (s : WorkflowState) (e : GenerationError)
    (h : env.llm collect_prompt s.user_input = .error e) :
    user_interaction_agent env s = s := by
  rw [user_interaction_agent, h]

theorem uia_fields (env : Env) (s : WorkflowState) :
    (user_interaction_agent env s).user_input = s.user_input ∧
      (user_interaction_agent env s).retrieved_items = s.retrieved_items ∧
      (user_interaction_agent env s).filtered_recommendations = s.filtered_recommendations ∧
      (user_interaction_agent env s).final_response = s.final_response := by
  rw [user_interaction_agent]
  cases env.llm collect_prompt s.user_input <;> exact ⟨rfl, rfl, rfl, rfl⟩

theorem fra_of_ok (env : Env) (s : WorkflowState) (r : String)
    (h : env.llm final_prompt (final_user_text s.filtered_recommendations) = .ok r) :
    final_response_agent env s = { s with final_response := r } := by
  rw [final_response_agent, h]

theorem fra_of_err (env : Env) (s : WorkflowState) (e : GenerationError)
    (h : env.llm final_prompt (final_user_text s.filtered_recommendations) = .error e) :
    final_response_agent env s = s := by
  rw [final_response_agent, h]

theorem fra_fields (env : Env) (s : WorkflowState) :
    (final_response_agent env s).user_input = s.user_input ∧
      (final_response_agent env s).user_preferences = s.user_preferences ∧
      (final_response_agent env s).retrieved_items = s.retrieved_items ∧
      (final_response_agent env s).filtered_recommendations = s.filtered_recommendations := by
  rw [final_response_agent]
  cases env.llm final_prompt (final_user_text s.filtered_recommendations) <;>
    exact ⟨rfl, rfl, rfl, rfl⟩

theorem ra_of_listFail (env : Env) (s : WorkflowState) (h : env.db.listFail = true) :
    retrieval_agent env s = s := by
  rw [retrieval_agent, get_available_categories, if_pos (by simp [h])]

theorem ra_of_sel_empty (env : Env) (s : WorkflowState) (cats : List String)
    (hc : get_available_categories env.db = .ok cats)
    (hsel : selectedCategories cats s.user_preferences = []) :
    retrieval_agent env s = { s with retrieved_items := [] } := by
  rw [retrieval_agent, hc]
  simp [hsel]

theorem ra_of_query_ok (env : Env) (s : WorkflowState) (cats : List String)
    (items : List CatalogItem)
    (hc : get_available_categories env.db = .ok cats)
    (hsel : selectedCategories cats s.user_preferences ≠ [])
    (hq : query_documents env.db (selectedCategories cats s.user_preferences) = .ok items) :
    retrieval_agent env s = { s with retrieved_items := items } := by
  rw [retrieval_agent, hc]
  simp [hsel, hq]

theorem ra_of_query_err (env : Env) (s : WorkflowState) (cats : List String)
    (e : DataSourceError)
    (hc : get_available_categories env.db = .ok cats)
    (hsel : selectedCategories cats s.user_preferences ≠ [])
    (hq : query_documents env.db (selectedCategories cats s.user_preferences) = .error e) :
    retrieval_agent env s = s := by
  rw [retrieval_agent, hc]
  simp [hsel, hq]

theorem ra_fields (env : Env) (s : WorkflowState) :
    (retrieval_agent env s).user_input = s.user_input ∧
      (retrieval_agent env s).user_preferences = s.user_preferences ∧
      (retrieval_agent env s).filtered_recommendations = s.filtered_recommendations ∧
      (retrieval_agent env s).final_response = s.final_response := by
  rw [retrieval_agent]
  cases get_available_categories env.db with
  | error e => exact ⟨rfl, rfl, rfl, rfl⟩
  | ok cats =>
    dsimp only
    split
    · exact ⟨rfl, rfl, rfl, rfl⟩
    · cases query_documents env.db (selectedCategories cats s.user_preferences) <;>
        exact ⟨rfl, rfl, rfl, rfl⟩

theorem ra_retrieved_sub (env : Env) (s : WorkflowState) :
    ∀ it ∈ (retrieval_agent env s).retrieved_items, it ∈ env.db.rows ∨ it ∈ s.retrieved_items := by
  intro it hit
  rw [retrieval_agent] at hit
  cases hc : get_available_categories env.db with
  | error e => rw [hc] at hit; exact Or.inr hit
  | ok cats =>
    rw [hc] at hit
    dsimp only at hit
    by_cases hsel : selectedCategories cats s.user_preferences = []
    · rw [if_pos hsel] at hit
      simp at hit
    · rw [if_neg hsel] at hit
      cases hq : query_documents env.db (selectedCategories cats s.user_preferences) with
      | error e => rw [hq] at hit; exact Or.inr hit
      | ok items =>
        rw [hq] at hit
        exact Or.inl (query_documents_sub env.db _ items hq it hit)

theorem formatLine_of_good (it : CatalogItem) (h : goodItem it) :
    ∃ l, formatLine it = .ok l := by
  obtain ⟨t0, ht⟩ := Option.isSome_iff_exists.mp h.1
  obtain ⟨a0, ha⟩ := Option.isSome_iff_exists.mp h.2.1
  obtain ⟨d0, hd⟩ := Option.isSome_iff_exists.mp h.2.2
  exact ⟨_, by rw [formatLine, ht, ha, hd]⟩

theorem formatLine_of_bad (it : CatalogItem) (h : ¬ goodItem it) :
    formatLine it = .error .mk := by
  rcases it with ⟨t, a, d, g⟩
  cases t <;> cases a <;> cases d <;> simp_all [formatLine, goodItem]

theorem mapM_ok_of_good (items : List CatalogItem) :
    (∀ it ∈ items, goodItem it) → ∃ ls, items.mapM formatLine = .ok ls := by
  induction items with
  | nil => intro _; exact ⟨[], rfl⟩
  | cons hd tl ih =>
    intro h
    obtain ⟨l, hl⟩ := formatLine_of_good hd (h hd (List.mem_cons_self hd tl))
    obtain ⟨ls, hls⟩ := ih (fun it h2 => h it (List.mem_cons_of_mem _ h2))
    refine ⟨l :: ls, ?_⟩
    rw [List.mapM_cons, hl, hls]
    rfl

theorem mapM_err_of_bad (items : List CatalogItem) :
    (∃ it ∈ items, ¬ goodItem it) → items.mapM formatLine = .error .mk := by
  induction items with
  | nil => intro h; simp at h
  | cons hd tl ih =>
    intro h
    by_cases hhd : goodItem hd
    · obtain ⟨l, hl⟩ := formatLine_of_good hd hhd
      rcases h with ⟨it, hmem, hbad⟩
      rcases List.mem_cons.mp hmem with rfl | htl
      · exact absurd hhd hbad
      · rw [List.mapM_cons, hl, ih ⟨it, htl, hbad⟩]
        rfl
    · rw [List.mapM_cons, formatLine_of_bad hd hhd]
      rfl

theorem formatItems_of_good (items : List CatalogItem) (h : ∀ it ∈ items, goodItem it) :
    ∃ txt, formatItems items = .ok txt := by
  obtain ⟨ls, hls⟩ := mapM_ok_of_good items h
  exact ⟨_, by rw [formatItems, hls]; rfl⟩

theorem formatItems_of_bad (items : List CatalogItem) (it : CatalogItem)
    (hmem : it ∈ items) (hbad : ¬ goodItem it) : formatItems items = .error .mk := by
  rw [formatItems, mapM_err_of_bad items ⟨it, hmem, hbad⟩]
  rfl

theorem filtering_of_format_err (env : Env) (s : WorkflowState) (e : KeyError)
    (h : formatItems s.retrieved_items = .error e) : filtering_agent env s = .error e := by
  rw [filtering_agent, h]

theorem filtering_of_llm_ok (env : Env) (s : WorkflowState) (txt r : String)
    (h : formatItems s.retrieved_items = .ok txt)
    (hr : env.llm filter_prompt (filter_user_text s.user_preferences txt) = .ok r) :
    filtering_agent env s = .ok { s with filtered_recommendations := r } := by
  rw [filtering_agent, h]
  dsimp only
  rw [hr]

theorem filtering_of_llm_err (env : Env) (s : WorkflowState) (txt : String)
    (e : GenerationError)
    (h : formatItems s.retrieved_items = .ok txt)
    (he : env.llm filter_prompt (filter_user_text s.user_preferences txt) = .error e) :
    filtering_agent env s = .ok s := by
  rw [filtering_agent, h]
  dsimp only
  rw [he]

theorem filtering_ok_exists (env : Env) (s : WorkflowState) (txt : String)
    (h : formatItems s.retrieved_items = .ok txt) :
    ∃ s', filtering_agent env s = .ok s' ∧
      s'.user_input = s.user_input ∧ s'.user_preferences = s.user_preferences ∧
      s'.retrieved_items = s.retrieved_items ∧ s'.final_response = s.final_response := by
  cases hr : env.llm filter_prompt (filter_user_text s.user_preferences txt) with
  | ok r =>
    exact ⟨_, filtering_of_llm_ok env s txt r h hr, rfl, rfl, rfl, rfl⟩
  | error e =>
    exact ⟨s, filtering_of_llm_err env s txt e h hr, rfl, rfl, rfl, rfl⟩

theorem filtering_ok_fields (env : Env) (s s' : WorkflowState)
    (h : filtering_agent env s = .ok s') :
    s'.user_input = s.user_input ∧ s'.user_preferences = s.user_preferences ∧
      s'.retrieved_items = s.retrieved_items ∧ s'.final_response = s.final_response := by
  rw [filtering_agent] at h
  cases hf : formatItems s.retrieved_items with
  | error e => rw [hf] at h; exact Except.noConfusion h
  | ok txt =>
    rw [hf] at h
    dsimp only at h
    cases hr : env.llm filter_prompt (filter_user_text s.user_preferences txt) with
    | ok r =>
      rw [hr] at h
      cases h
      exact ⟨rfl, rfl, rfl, rfl⟩
    | error e =>
      rw [hr] at h
      cases h
      exact ⟨rfl, rfl, rfl, rfl⟩

/-- Generation client that always answers with the fixed text x. -/
def okLLM : String → String → Except GenerationError String := fun _ _ => .ok "x"

/-- Generation client that always fails. -/
def errLLM : String → String → Except GenerationError String := fun _ _ => .error .mk

/-- A store with no rows and no failures. -/
def dbEmpty : Database := ⟨[], false, fun _ => false⟩

/-- A well-formed sample row. -/
def itemA : CatalogItem := ⟨some "Dune", some "Herbert", some "Villeneuve", "Sci-Fi"⟩

/-- A store whose category listing fails. -/
def dbFailList : Database := ⟨[itemA], true, fun _ => false⟩

/-- Environment with an always-answering client and an empty store. -/
def envOk : Env := ⟨okLLM, dbEmpty⟩

/-- C1: the workflow engine routes exactly per the transition table:
execution starts at PreferenceCollection; after PreferenceCollection it
goes to Retrieval if `user_preferences` is non-empty and to
FinalFormatting if it is empty; after Retrieval it goes to Filtering if
`retrieved_items` is non-empty and to FinalFormatting if it is empty;
Filtering always goes to FinalFormatting; FinalFormatting always goes to
Terminal, and Terminal is entered only via FinalFormatting. -/
theorem C1_routing :
    entry_point = Node.userInteraction ∧
    (∀ env s, invoke env s = exec env Node.userInteraction s) ∧
    (∀ s : WorkflowState, s.user_preferences ≠ "" →
      nextNode Node.userInteraction s = Node.retrieval) ∧
    (∀ s : WorkflowState, s.user_preferences = "" →
      nextNode Node.userInteraction s = Node.finalResponse) ∧
    (∀ s : WorkflowState, s.retrieved_items ≠ [] →
      nextNode Node.retrieval s = Node.filtering) ∧
    (∀ s : WorkflowState, s.retrieved_items = [] →
      nextNode Node.retrieval s = Node.finalResponse) ∧
    (∀ s, nextNode Node.filtering s = Node.finalResponse) ∧
    (∀ s, nextNode Node.finalResponse s = Node.terminal) ∧
    (∀ n s, n ≠ Node.terminal → nextNode n s = Node.terminal → n = Node.finalResponse) := by
  refine ⟨rfl, fun env s => rfl, fun s h => by simp [nextNode, h],
    fun s h => by simp [nextNode, h], fun s h => by simp [nextNode, h],
    fun s h => by simp [nextNode, h], fun s => rfl, fun s => rfl, fun n s hn h => ?_⟩
  cases n with
  | userInteraction =>
    rw [nextNode] at h
    split at h <;> exact Node.noConfusion h
  | retrieval =>
    rw [nextNode] at h
    split at h <;> exact Node.noConfusion h
  | filtering => exact Node.noConfusion h
  | finalResponse => rfl
  | terminal => exact absurd rfl hn

/-- Witness for C1 at concrete states. -/
theorem C1_routing_witness :
    nextNode Node.userInteraction ⟨"", "p", [], "", ""⟩ = Node.retrieval ∧
    nextNode Node.userInteraction ⟨"", "", [], "", ""⟩ = Node.finalResponse ∧
    nextNode Node.retrieval ⟨"", "p", [itemA], "", ""⟩ = Node.filtering ∧
    nextNode Node.retrieval ⟨"", "p", [], "", ""⟩ = Node.finalResponse ∧
    Node.retrieval ≠ Node.terminal :=
  ⟨C1_routing.2.2.1 ⟨"", "p", [], "", ""⟩ (by decide),
   C1_routing.2.2.2.1 ⟨"", "", [], "", ""⟩ rfl,
   C1_routing.2.2.2.2.1 ⟨"", "p", [itemA], "", ""⟩ (by simp),
   C1_routing.2.2.2.2.2.1 ⟨"", "p", [], "", ""⟩ rfl,
   by decide⟩

/-- C6: ListCategories returns the distinct, lower-cased set of genre
labels present in the store; it fails with DataSourceError exactly on
connectivity/query failure, and an empty store yields the empty set
rather than an error. -/
theorem C6_list_categories (db : Database) :
    (db.listFail = true → get_available_categories db = .error DataSourceError.mk) ∧
    (db.listFail = false →
      ∃ cats, get_available_categories db = .ok cats ∧ cats.Nodup ∧
        ∀ c, c ∈ cats ↔ ∃ it ∈ db.rows, lowerStr it.genre = c) ∧
    (db.listFail = false → db.rows = [] → get_available_categories db = .ok []) := by
  refine ⟨fun h => by rw [get_available_categories, if_pos (by simp [h])],
    fun h => ?_, fun h he => ?_⟩
  · refine ⟨_, by rw [get_available_categories, if_neg (by simp [h])],
      List.nodup_dedup _, fun c => ?_⟩
    simp [List.mem_dedup, List.mem_map]
  · rw [get_available_categories, if_neg (by simp [h]), he]
    simp

/-- Witness for C6 at concrete stores. -/
theorem C6_list_categories_witness :
    get_available_categories dbFailList = .error DataSourceError.mk ∧
    get_available_categories dbEmpty = .ok [] :=
  ⟨(C6_list_categories dbFailList).1 rfl, (C6_list_categories dbEmpty).2.2 rfl rfl⟩

/-- C7: within one run the state is append-only: each stage writes only
its own designated field and leaves every other field unchanged, and the
`user_input` field set at creation is unchanged in the terminal state. -/
theorem C7_append_only (env : Env) (s : WorkflowState) :
    ((user_interaction_agent env s).user_input = s.user_input ∧
      (user_interaction_agent env s).retrieved_items = s.retrieved_items ∧
      (user_interaction_agent env s).filtered_recommendations = s.filtered_recommendations ∧
      (user_interaction_agent env s).final_response = s.final_response) ∧
    ((retrieval_agent env s).user_input = s.user_input ∧
      (retrieval_agent env s).user_preferences = s.user_preferences ∧
      (retrieval_agent env s).filtered_recommendations = s.filtered_recommendations ∧
      (retrieval_agent env s).final_response = s.final_response) ∧
    (∀ s', filtering_agent env s = .ok s' →
      s'.user_input = s.user_input ∧ s'.user_preferences = s.user_preferences ∧
      s'.retrieved_items = s.retrieved_items ∧ s'.final_response = s.final_response) ∧
    ((final_response_agent env s).user_input = s.user_input ∧
      (final_response_agent env s).user_preferences = s.user_preferences ∧
      (final_response_agent env s).retrieved_items = s.retrieved_items ∧
      (final_response_agent env s).filtered_recommendations = s.filtered_recommendations) ∧
    (∀ input s', get_state env input = .ok s' → s'.user_input = input) := by
  refine ⟨uia_fields env s, ra_fields env s,
    fun s' h => filtering_ok_fields env s s' h, fra_fields env s, fun input s' h => ?_⟩
  rw [get_state, invoke_eq] at h
  by_cases h1 : (user_interaction_agent env (initial_state input)).user_preferences = ""
  · rw [if_pos h1] at h
    cases h
    rw [(fra_fields env _).1, (uia_fields env _).1]
    rfl
  · rw [if_neg h1] at h
    by_cases h2 :
        (retrieval_agent env (user_interaction_agent env (initial_state input))).retrieved_items = []
    · rw [if_pos h2] at h
      cases h
      rw [(fra_fields env _).1, (ra_fields env _).1, (uia_fields env _).1]
      rfl
    · rw [if_neg h2] at h
      cases hf : filtering_agent env
          (retrieval_agent env (user_interaction_agent env (initial_state input))) with
      | error e => rw [hf] at h; exact Except.noConfusion h
      | ok s3 =>
        rw [hf] at h
        cases h
        rw [(fra_fields env _).1, (filtering_ok_fields env _ s3 hf).1,
          (ra_fields env _).1, (uia_fields env _).1]
        rfl

/-- Witness for C7 at a concrete run. -/
theorem C7_append_only_witness :
    (user_interaction_agent envOk ⟨"i", "", [], "", ""⟩).user_input = "i" ∧
    (filtering_agent envOk ⟨"i", "p", [], "", ""⟩ = .ok ⟨"i", "p", [], "x", ""⟩ →
      WorkflowState.user_input ⟨"i", "p", [], "x", ""⟩ = "i") ∧
    (get_state envOk "i" = .ok ⟨"i", "x", [], "", "x"⟩ →
      WorkflowState.user_input ⟨"i", "x", [], "", "x"⟩ = "i") :=
  ⟨(C7_append_only envOk ⟨"i", "", [], "", ""⟩).1.1,
   fun h => ((C7_append_only envOk ⟨"i", "p", [], "", ""⟩).2.2.1 _ h).1,
   fun h => (C7_append_only envOk ⟨"i", "", [], "", ""⟩).2.2.2.2 "i" _ h⟩

/-- C8: `run` performs the same execution as `get_state` from the same
initial state and returns exactly the `final_response` field of the
terminal state `get_state` returns (and fails exactly when it fails). -/
theorem C8_run_refines_get_state (env : Env) (input : String) :
    (∀ s, get_state env input = .ok s → run env input = .ok s.final_response) ∧
    (∀ e, get_state env input = .error e → run env input = .error e) := by
  have hrg : run env input = Except.map (fun s => s.final_response) (get_state env input) := rfl
  exact ⟨fun s hs => by rw [hrg, hs]; rfl, fun e he => by rw [hrg, he]; rfl⟩

/-- Environment whose generation client always fails, over a store with
one well-formed row whose listing fails. -/
def envErr : Env := ⟨errLLM, dbFailList⟩

/-- A store holding one sci-fi row, no failures. -/
def dbSciFi : Database := ⟨[itemA], false, fun _ => false⟩

/-- Environment over the one-row sci-fi store. -/
def envSciFi : Env := ⟨okLLM, dbSciFi⟩

/-- Witness for C8 at a concrete run. -/
theorem C8_run_refines_get_state_witness : run envOk "i" = .ok "x" := by
  have hg : get_state envOk "i" = .ok ⟨"i", "x", [], "", "x"⟩ := by
    rw [get_state, invoke_eq]
    rfl
  exact (C8_run_refines_get_state envOk "i").1 _ hg

/-- C2: for every user input and every pattern of data-source and
generation failures over a store of well-formed rows, the run reaches
Terminal and returns a value, and each failing stage leaves its output
field unchanged (hence at its empty default). -/
theorem C2_fail_open (env : Env) (hw : WellFormed env.db) (input : String) :
    (∃ s, get_state env input = .ok s ∧ run env input = .ok s.final_response) ∧
    (∀ s, env.llm collect_prompt s.user_input = .error GenerationError.mk →
      user_interaction_agent env s = s) ∧
    (∀ s : WorkflowState, env.db.listFail = true → retrieval_agent env s = s) ∧
    (∀ s txt, formatItems s.retrieved_items = .ok txt →
      env.llm filter_prompt (filter_user_text s.user_preferences txt) =
        .error GenerationError.mk →
      filtering_agent env s = .ok s) ∧
    (∀ s, env.llm final_prompt (final_user_text s.filtered_recommendations) =
        .error GenerationError.mk →
      final_response_agent env s = s) := by
  refine ⟨?_, fun s h => uia_of_err env s _ h, fun s h => ra_of_listFail env s h,
    fun s txt h he => filtering_of_llm_err env s txt _ h he,
    fun s h => fra_of_err env s _ h⟩
  have key : ∃ s, get_state env input = .ok s := by
    rw [get_state, invoke_eq]
    by_cases h1 : (user_interaction_agent env (initial_state input)).user_preferences = ""
    · rw [if_pos h1]
      exact ⟨_, rfl⟩
    · rw [if_neg h1]
      by_cases h2 : (retrieval_agent env
          (user_interaction_agent env (initial_state input))).retrieved_items = []
      · rw [if_pos h2]
        exact ⟨_, rfl⟩
      · rw [if_neg h2]
        have hsub : ∀ it ∈ (retrieval_agent env
            (user_interaction_agent env (initial_state input))).retrieved_items, goodItem it := by
          intro it hit
          rcases ra_retrieved_sub env _ it hit with h | h
          · exact hw it h
          · rw [(uia_fields env _).2.1] at h
            simp [initial_state] at h
        obtain ⟨txt, htxt⟩ := formatItems_of_good _ hsub
        obtain ⟨s', hs', -⟩ := filtering_ok_exists env _ txt htxt
        rw [hs']
        exact ⟨_, rfl⟩
  obtain ⟨s, hs⟩ := key
  refine ⟨s, hs, ?_⟩
  rw [show run env input = Except.map (fun t => t.final_response) (get_state env input) from rfl,
    hs]
  rfl

/-- Witness for C2 at a concrete failing environment. -/
theorem C2_fail_open_witness :
    (∃ s, get_state envErr "hello" = .ok s ∧ run envErr "hello" = .ok s.final_response) ∧
    retrieval_agent envErr ⟨"hello", "p", [], "", ""⟩ = ⟨"hello", "p", [], "", ""⟩ :=
  ⟨(C2_fail_open envErr (by decide) "hello").1,
   (C2_fail_open envErr (by decide) "hello").2.2.1 ⟨"hello", "p", [], "", ""⟩ rfl⟩

/-- C3: the Retrieval stage selects exactly the available categories
occurring as whole lowercase tokens of the preference text (token-level,
case-insensitive, not substring); and on a non-empty preference text
whose tokens meet no available category, `retrieved_items` is set empty,
the store query plays no part, and routing goes to FinalFormatting. -/
theorem C3_category_selection (cats : List String) (p : String) :
    (∀ c, c ∈ selectedCategories cats p ↔ c ∈ cats ∧ c ∈ tokens (lowerStr p)) ∧
    selectedCategories ["sci-fi"] "I like Sci-Fi movies" = ["sci-fi"] ∧
    selectedCategories ["sci"] "I like sci-fi movies" = [] ∧
    (∀ env : Env, ∀ s : WorkflowState,
      get_available_categories env.db = .ok cats →
      s.user_preferences = p → p ≠ "" →
      selectedCategories cats p = [] →
      retrieval_agent env s = { s with retrieved_items := [] } ∧
      nextNode Node.retrieval (retrieval_agent env s) = Node.finalResponse ∧
      ∀ qf, retrieval_agent ⟨env.llm, ⟨env.db.rows, env.db.listFail, qf⟩⟩ s =
        retrieval_agent env s) := by
  refine ⟨fun c => ?_, by decide, by decide, fun env s hc hp hne hsel => ?_⟩
  · simp [selectedCategories, List.mem_filter, List.elem_iff]
  · subst hp
    have h1 : retrieval_agent env s = { s with retrieved_items := [] } :=
      ra_of_sel_empty env s cats hc hsel
    refine ⟨h1, by rw [h1]; simp [nextNode], fun qf => ?_⟩
    have hc2 : get_available_categories ⟨env.db.rows, env.db.listFail, qf⟩ = .ok cats := hc
    rw [ra_of_sel_empty ⟨env.llm, ⟨env.db.rows, env.db.listFail, qf⟩⟩ s cats hc2 hsel, h1]

/-- Witness for C3 at a concrete store and preference text. -/
theorem C3_category_selection_witness :
    retrieval_agent envSciFi ⟨"", "I like jazz", [], "", ""⟩ = ⟨"", "I like jazz", [], "", ""⟩ ∧
    nextNode Node.retrieval (retrieval_agent envSciFi ⟨"", "I like jazz", [], "", ""⟩) =
      Node.finalResponse := by
  have h := (C3_category_selection ["sci-fi"] "I like jazz").2.2.2 envSciFi
    ⟨"", "I like jazz", [], "", ""⟩ (by rfl) rfl (by decide) (by decide)
  exact ⟨h.1, h.2.1⟩

/-- C4: QueryByCategories matches each category case-insensitively and
partially against stored genre labels, accumulates matches in
category-iteration order without deduplicating across categories, yields
the empty sequence without querying on an empty category set, and on the
sample store with 3 sci-fi and 2 fantasy rows returns the 5 rows in
per-category grouping order. -/
theorem C4_query_by_categories (db : Database) (genres : List String) :
    query_documents db [] = .ok [] ∧
    ((∀ g ∈ genres, db.queryFail g = false) →
      query_documents db genres =
        .ok (genres.flatMap (fun g => db.rows.filter (fun it => genreMatch g it.genre)))) ∧
    query_documents
        ⟨[⟨some "Dune", some "Herbert", some "Villeneuve", "Sci-Fi"⟩,
          ⟨some "LOTR", some "Tolkien", some "Jackson", "Fantasy"⟩,
          ⟨some "Foundation", some "Asimov", some "", "sci-fi"⟩,
          ⟨some "Hobbit", some "Tolkien", some "", "fantasy"⟩,
          ⟨some "Neuromancer", some "Gibson", some "", "Sci-fi"⟩],
         false, fun _ => false⟩ ["sci-fi", "fantasy"] =
      .ok [⟨some "Dune", some "Herbert", some "Villeneuve", "Sci-Fi"⟩,
        ⟨some "Foundation", some "Asimov", some "", "sci-fi"⟩,
        ⟨some "Neuromancer", some "Gibson", some "", "Sci-fi"⟩,
        ⟨some "LOTR", some "Tolkien", some "Jackson", "Fantasy"⟩,
        ⟨some "Hobbit", some "Tolkien", some "", "fantasy"⟩] ∧
    query_documents ⟨[⟨some "Dune", some "Herbert", some "Villeneuve", "Sci-Fi"⟩],
        false, fun _ => false⟩ ["sci", "sci-fi"] =
      .ok [⟨some "Dune", some "Herbert", some "Villeneuve", "Sci-Fi"⟩,
        ⟨some "Dune", some "Herbert", some "Villeneuve", "Sci-Fi"⟩] := by
  refine ⟨rfl, fun h => ?_, rfl, rfl⟩
  rw [query_documents, queryLoop_ok db genres [] h]
  simp

/-- Witness for C4: the general accumulation shape applied to the
5-row sample store. -/
theorem C4_query_by_categories_witness :
    query_documents
        ⟨[⟨some "Dune", some "Herbert", some "Villeneuve", "Sci-Fi"⟩,
          ⟨some "LOTR", some "Tolkien", some "Jackson", "Fantasy"⟩,
          ⟨some "Foundation", some "Asimov", some "", "sci-fi"⟩,
          ⟨some "Hobbit", some "Tolkien", some "", "fantasy"⟩,
          ⟨some "Neuromancer", some "Gibson", some "", "Sci-fi"⟩],
         false, fun _ => false⟩ ["sci-fi", "fantasy"] =
      .ok (["sci-fi", "fantasy"].flatMap (fun g =>
        [⟨some "Dune", some "Herbert", some "Villeneuve", "Sci-Fi"⟩,
          ⟨some "LOTR", some "Tolkien", some "Jackson", "Fantasy"⟩,
          ⟨some "Foundation", some "Asimov", some "", "sci-fi"⟩,
          ⟨some "Hobbit", some "Tolkien", some "", "fantasy"⟩,
          ⟨some "Neuromancer", some "Gibson", some "", "Sci-fi"⟩].filter
            (fun it => genreMatch g it.genre))) :=
  (C4_query_by_categories _ ["sci-fi", "fantasy"]).2.1 (by decide)

/-- C9: the per-item formatting of `retrieved_items` happens before the
guarded region of the Filtering stage, so a retrieved row lacking a read
field makes the stage (and the engine run through it) fail, while the
catch-and-continue handling covers only the text-generation call. -/
theorem C9_filtering_guard (env : Env) (s : WorkflowState) :
    (∀ it ∈ s.retrieved_items, ¬ goodItem it →
      filtering_agent env s = .error KeyError.mk ∧
      exec env Node.filtering s = .error KeyError.mk) ∧
    (∀ txt, formatItems s.retrieved_items = .ok txt →
      ∃ s', filtering_agent env s = .ok s') := by
  constructor
  · intro it hmem hbad
    have hfmt := formatItems_of_bad _ it hmem hbad
    have hfa := filtering_of_format_err env s _ hfmt
    refine ⟨hfa, ?_⟩
    rw [exec_step env Node.filtering s (by decide)]
    simp only [runNode, hfa]
  · intro txt htxt
    obtain ⟨s', hs', -⟩ := filtering_ok_exists env s txt htxt
    exact ⟨s', hs'⟩

/-- Witness for C9 at a concrete row lacking its title field. -/
theorem C9_filtering_guard_witness :
    filtering_agent envOk ⟨"", "p", [⟨none, some "a", some "d", "g"⟩], "", ""⟩ =
      .error KeyError.mk ∧
    exec envOk Node.filtering ⟨"", "p", [⟨none, some "a", some "d", "g"⟩], "", ""⟩ =
      .error KeyError.mk :=
  (C9_filtering_guard envOk ⟨"", "p", [⟨none, some "a", some "d", "g"⟩], "", ""⟩).1
    ⟨none, some "a", some "d", "g"⟩ (by decide) (by decide)

/-- The distinct lower-cased genre labels a store lists on success. -/
def avail (db : Database) : List String :=
  (db.rows.map (fun it => lowerStr it.genre)).dedup

theorem get_available_of_ok (db : Database) : db.listFail = false →
    get_available_categories db = .ok (avail db) := by
  intro h
  rw [get_available_categories, if_neg (by simp [h])]
  rfl

theorem get_available_ok_elim (db : Database) (cats : List String)
    (h : get_available_categories db = .ok cats) : cats = avail db := by
  rw [get_available_categories] at h
  by_cases hl : db.listFail
  · rw [if_pos (by simp [hl])] at h
    exact Except.noConfusion h
  · rw [if_neg (by simpa using hl)] at h
    exact (Except.ok.inj h).symm

/-- C10: a per-category query failure part-way through the loop makes
QueryByCategories fail and discard every match accumulated so far — a
successful result is always the complete accumulation — and through the
fail-open handler of Retrieval the stage leaves the state unchanged, so
the terminal state carries no partial `retrieved_items`. -/
theorem C10_no_partial_results (db : Database) (genres : List String) :
    ((∃ g ∈ genres, db.queryFail g = true) →
      query_documents db genres = .error DataSourceError.mk) ∧
    (∀ res, query_documents db genres = .ok res →
      (∀ g ∈ genres, db.queryFail g = false) ∧
      res = genres.flatMap (fun g => db.rows.filter (fun it => genreMatch g it.genre))) ∧
    (∀ env : Env, ∀ s : WorkflowState, ∀ cats,
      get_available_categories env.db = .ok cats →
      selectedCategories cats s.user_preferences ≠ [] →
      (∃ g ∈ selectedCategories cats s.user_preferences, env.db.queryFail g = true) →
      retrieval_agent env s = s) ∧
    (∀ env : Env, ∀ input s',
      get_state env input = .ok s' →
      (∃ g ∈ selectedCategories (avail env.db) s'.user_preferences,
        env.db.queryFail g = true) →
      s'.retrieved_items = []) := by
  refine ⟨fun h => queryLoop_err db genres [] h,
    fun res h => ⟨(query_documents_ok_elim db genres res h).2,
      (query_documents_ok_elim db genres res h).1⟩,
    fun env s cats hc hne hfail => ?_, fun env input s' h hfail => ?_⟩
  · exact ra_of_query_err env s cats DataSourceError.mk hc hne
      (queryLoop_err env.db _ [] hfail)
  · rw [get_state, invoke_eq] at h
    by_cases h1 : (user_interaction_agent env (initial_state input)).user_preferences = ""
    · rw [if_pos h1] at h
      cases h
      rw [(fra_fields env _).2.2.1, (uia_fields env _).2.1]
      rfl
    · rw [if_neg h1] at h
      by_cases h2 : (retrieval_agent env
          (user_interaction_agent env (initial_state input))).retrieved_items = []
      · rw [if_pos h2] at h
        cases h
        rw [(fra_fields env _).2.2.1]
        exact h2
      · exfalso
        rw [if_neg h2] at h
        have hprefs : s'.user_preferences =
            (user_interaction_agent env (initial_state input)).user_preferences := by
          cases hf : filtering_agent env (retrieval_agent env
              (user_interaction_agent env (initial_state input))) with
          | error e => rw [hf] at h; exact Except.noConfusion h
          | ok s3 =>
            rw [hf] at h
            cases h
            rw [(fra_fields env _).2.1, (filtering_ok_fields env _ s3 hf).2.1,
              (ra_fields env _).2.1]
        rw [hprefs] at hfail
        by_cases hl : env.db.listFail
        · exact h2 (by rw [ra_of_listFail env _ (by simpa using hl), (uia_fields env _).2.1]; rfl)
        · have hc := get_available_of_ok env.db (by simpa using hl)
          by_cases hsel : selectedCategories (avail env.db)
              (user_interaction_agent env (initial_state input)).user_preferences = []
          · exact h2 (by rw [ra_of_sel_empty env _ _ hc hsel])
          · exact h2 (by
              rw [ra_of_query_err env _ _ DataSourceError.mk hc hsel
                (queryLoop_err env.db _ [] hfail), (uia_fields env _).2.1]
              rfl)

/-- Witness for C10: a store failing on the fantasy query discards the
sci-fi matches already accumulated. -/
theorem C10_no_partial_results_witness :
    query_documents
        ⟨[⟨some "Dune", some "Herbert", some "Villeneuve", "Sci-Fi"⟩],
         false, fun g => g == "fantasy"⟩ ["sci-fi", "fantasy"] =
      .error DataSourceError.mk :=
  (C10_no_partial_results
    ⟨[⟨some "Dune", some "Herbert", some "Villeneuve", "Sci-Fi"⟩],
     false, fun g => g == "fantasy"⟩ ["sci-fi", "fantasy"]).1
    ⟨"fantasy", by decide, by decide⟩

/-- Counterexample to C5 as stated: on the empty input, Preference
Collection simply forwards the generation output, so with a client that
answers "x" the terminal preferences are "x" (not empty) and the run
returns "x" (not the empty string). -/
theorem C5_counterexample :
    get_state envOk "" = .ok ⟨"", "x", [], "", "x"⟩ ∧
    run envOk "" = .ok "x" ∧ ("x" : String) ≠ "" := by
  have hg : get_state envOk "" = .ok ⟨"", "x", [], "", "x"⟩ := by
    rw [get_state, invoke_eq]
    rfl
  refine ⟨hg, ?_, by decide⟩
  rw [show run envOk "" = Except.map (fun t => t.final_response) (get_state envOk "") from rfl,
    hg]
  rfl

/-- C5 (amended): for the empty user input, whenever the preference
collection generation call fails or returns empty text, the run routes
straight to FinalFormatting with empty preferences, retrieved items and
filtered recommendations, and returns normally the final-formatting
generation output — the empty string when that call fails too. -/
theorem C5_empty_input (env : Env)
    (h1 : env.llm collect_prompt "" = .error GenerationError.mk ∨
      env.llm collect_prompt "" = .ok "") :
    ∃ s, get_state env "" = .ok s ∧
      nextNode Node.userInteraction (user_interaction_agent env (initial_state "")) =
        Node.finalResponse ∧
      s.user_preferences = "" ∧ s.retrieved_items = [] ∧ s.filtered_recommendations = "" ∧
      run env "" = .ok s.final_response ∧
      (env.llm final_prompt (final_user_text "") = .error GenerationError.mk →
        s.final_response = "") ∧
      (∀ r, env.llm final_prompt (final_user_text "") = .ok r → s.final_response = r) := by
  have hs1 : user_interaction_agent env (initial_state "") = initial_state "" := by
    rcases h1 with h | h
    · exact uia_of_err env _ _ h
    · rw [uia_of_ok env _ _ h]
      rfl
  have hg : get_state env "" = .ok (final_response_agent env (initial_state "")) := by
    rw [get_state, invoke_eq, hs1,
      if_pos (show (initial_state "").user_preferences = "" from rfl)]
  refine ⟨final_response_agent env (initial_state ""), hg, by rw [hs1]; decide,
    (fra_fields env _).2.1, (fra_fields env _).2.2.1, (fra_fields env _).2.2.2,
    ?_, fun h => by rw [fra_of_err env _ _ h]; rfl,
    fun r h => by rw [fra_of_ok env _ r h]⟩
  rw [show run env "" = Except.map (fun t => t.final_response) (get_state env "") from rfl, hg]
  rfl

/-- Witness for C5 (amended) at a concrete all-failing client. -/
theorem C5_empty_input_witness : run envErr "" = .ok "" := by
  obtain ⟨s, -, -, -, -, -, hrun, herr, -⟩ := C5_empty_input envErr (Or.inl rfl)
  rw [herr rfl] at hrun
  exact hrun

end RecSys
